import Mathlib

/-!
Verification of the watermark-compositing core of the `teleforge` repository
(`src/modules/watermarker.py`).

The Python functions `create_text_watermark_image`, `apply_watermark` and the
batch loop of `run` are shallowly embedded below.  Raster images are modelled
as dimensioned pixel grids; the Pillow library operations used by the code
(`Image.open`, `ImageFont.truetype`, the Lanczos resampling kernel, glyph
rendering) are external C code, so they enter the model as an explicit
environment (`Env`) of functions, while everything the repository itself
computes — scaling arithmetic, the opacity lookup table, anchor placement,
`paste` masking, `alpha_composite` blending, JPEG-encoding metadata and the
error handling — is translated directly from the source.

Python's float arithmetic on the small scaling expressions is modelled by
exact rational/integer arithmetic; `int(...)` on a non-negative value is
integer (floor) division, and on a possibly negative value it truncates
toward zero (`Int.tdiv`).
-/

namespace Teleforge

/-- One RGBA sample, each channel in `0..255`. -/
structure Pixel where
  r : Nat
  g : Nat
  b : Nat
  a : Nat
deriving DecidableEq, Repr

/-- A decoded raster image: dimensions plus a pixel grid. -/
structure Img where
  width : Nat
  height : Nat
  px : Nat → Nat → Pixel

/-- A glyph bounding box as returned by `ImageDraw.textbbox`: left, top,
right, bottom. -/
structure BBox where
  l : Int
  t : Int
  r : Int
  b : Int

/-- A loaded font, as produced by `ImageFont.truetype` at a fixed size.
`glyphBBox` models `textbbox`; `renderGlyph` models the rasterisation done by
`draw.text` (fill alpha, stroke alpha, stroke width, pixel coordinates). -/
structure Font where
  glyphBBox : String → BBox
  renderGlyph : Nat → Nat → Nat → Nat → Nat → Pixel

/-- Failure modes of `ImageFont.truetype`: Python raises `FileNotFoundError`
for a missing file and other `OSError`s for a present-but-unloadable file. -/
inductive FontError where
  | fileNotFound
  | invalidFont
deriving DecidableEq, Repr

/-- The spec's error taxonomy for the watermark core (§7 of the spec). -/
inductive WMError where
  | fontNotFound
  | renderError
  | imageDecodeError
  | ioError
deriving DecidableEq, Repr

/-- The external Pillow operations consumed by the watermarker:
`decode` is `Image.open(path).convert("RGBA")` (`none` models any decode
exception), `truetype` is `ImageFont.truetype`, and `resample` is the Lanczos
kernel filling the pixels of a resized image (the resized dimensions are
fixed by the caller, as Pillow's `resize` guarantees). -/
structure Env where
  decode : String → Option Img
  truetype : String → Nat → Except FontError Font
  resample : Img → Nat → Nat → Nat → Nat → Pixel

/-- The `options` dict assembled by `run`. -/
structure Options where
  type : String
  position : String
  scale : Nat
  opacity : Nat
deriving DecidableEq, Repr

/-- The in-memory output buffer produced by `apply_watermark`: a JPEG
encoding of the flattened RGB image, with the stream position after the
`seek(0)` rewind and the `name` attribute the code sets. -/
structure Buffer where
  width : Nat
  height : Nat
  format : String
  quality : Nat
  hasAlpha : Bool
  streamPos : Nat
  name : String
deriving DecidableEq, Repr

/-- Pillow's `MULDIV255` fixed-point macro: `t = a*b + 128;
((t >> 8) + t) >> 8`, an exactly-rounded division of `a*b` by 255. -/
def mulDiv255 (a b : Nat) : Nat :=
  let t := a * b + 128
  (t / 256 + t) / 256

/-- Pillow's `BLEND` macro used by `paste` with a mask: blend destination and
source samples with mask weight `m`. -/
def pasteBlend (m dst src : Nat) : Nat :=
  mulDiv255 dst (255 - m) + mulDiv255 src m

/-- Python's built-in `round` applied to the exact ratio `n / d`:
round-half-to-even (banker's rounding). -/
def roundHalfEven (n d : Nat) : Nat :=
  let q := n / d
  let r := n % d
  if 2 * r < d then q
  else if d < 2 * r then q + 1
  else if q % 2 = 0 then q else q + 1

/-- Lines 118–122 of `watermarker.py`: when `opacity < 100`, rebuild the
alpha channel via `point(lambda p: p * (opacity / 100))` and leave RGB
untouched; otherwise the image is returned unchanged.  The Pillow versions
this code can run with (`Image.Resampling.LANCZOS` exists only from Pillow
9.1) convert the callable's float lookup-table entries with Python's
`round`, i.e. half-to-even, so each alpha sample becomes
`round(alpha * opacity / 100)`. -/
def applyOpacity (opacity : Nat) (img : Img) : Img :=
  if opacity < 100 then
    { img with px := fun x y =>
        let p := img.px x y
        { p with a := roundHalfEven (p.a * opacity) 100 } }
  else img

/-- `img.resize((w, h), Image.Resampling.LANCZOS)`: the output has exactly
the requested dimensions; the pixel content comes from the resampling
kernel, which is Pillow C code and therefore part of the environment. -/
def resizeTo (resample : Img → Nat → Nat → Nat → Nat → Pixel)
    (img : Img) (w h : Nat) : Img :=
  { width := w, height := h, px := fun x y => resample img w h x y }

/-- Line 50 of `watermarker.py`:
`int((size[0] * (scale / 100)) / len(text) * 1.8)` — as an exact rational
this is `⌊refWidth * scale * 9 / (500 * len)⌋`, a Nat division. -/
def fontSizeOf (refWidth scale len : Nat) : Nat :=
  refWidth * scale * 9 / (500 * len)

/-- Line 67: `max(1, int(font_size / 25))`. -/
def strokeWidthOf (fontSize : Nat) : Nat :=
  max 1 (fontSize / 25)

/-- Line 114: `int(base_image.width * (options["scale"] / 100))`. -/
def newWidthOf (baseWidth scale : Nat) : Nat :=
  baseWidth * scale / 100

/-- Line 116: `int(new_width * ratio)` with `ratio = height / width` of the
decoded watermark. -/
def newHeightOf (newWidth wmWidth wmHeight : Nat) : Nat :=
  newWidth * wmHeight / wmWidth

/-- `create_text_watermark_image` (lines 33–87).  A zero-length `text` makes
line 50 raise `ZeroDivisionError`, caught by the generic handler (line 85);
a missing font file raises `FileNotFoundError` (handler at line 80); any
other font-loading failure falls to the generic handler; a degenerate
bounding box would make `Image.new` raise `ValueError`, also caught by the
generic handler.  On success the raster is exactly the glyph bounding box,
with fill and stroke opacity both `int(255 * opacity / 100)` and stroke
width `max(1, int(font_size / 25))`. -/
def create_text_watermark_image (env : Env) (text : String)
    (size : Nat × Nat) (font_path : String) (opacity : Nat) (scale : Nat) :
    Except WMError Img :=
  if text.length = 0 then .error .renderError
  else
    let font_size := fontSizeOf size.1 scale text.length
    match env.truetype font_path font_size with
    | .error .fileNotFound => .error .fontNotFound
    | .error .invalidFont => .error .renderError
    | .ok font =>
      let bb := font.glyphBBox text
      let text_width := bb.r - bb.l
      let text_height := bb.b - bb.t
      if text_width < 0 ∨ text_height < 0 then .error .renderError
      else
        let fill_opacity := 255 * opacity / 100
        let stroke_opacity := 255 * opacity / 100
        let stroke_width := strokeWidthOf font_size
        .ok { width := text_width.toNat, height := text_height.toNat,
              px := fun x y =>
                font.renderGlyph fill_opacity stroke_opacity stroke_width x y }

/-- Lines 127–151 of `watermarker.py`: the placement computation.  A text
watermark is always centred; otherwise the `positions` dict is consulted
with `positions.get(options["position"], positions["1"])`, so any
unrecognised key falls back to bottom-right.  `padding` is the literal 10 of
line 128.  Python's `int((a - b) / 2)` truncates toward zero, hence
`Int.tdiv`. -/
def resolvePosition (type_ : String) (posKey : String)
    (bw bh ww wh : Int) : Int × Int :=
  let padding : Int := 10
  if type_ = "text" then
    ((bw - ww).tdiv 2, (bh - wh).tdiv 2)
  else if posKey = "1" then (bw - ww - padding, bh - wh - padding)
  else if posKey = "2" then (padding, bh - wh - padding)
  else if posKey = "3" then (bw - ww - padding, padding)
  else if posKey = "4" then (padding, padding)
  else if posKey = "5" then ((bw - ww).tdiv 2, (bh - wh).tdiv 2)
  else (bw - ww - padding, bh - wh - padding)

/-- Lines 154–155: paste the watermark onto a freshly created fully
transparent layer of the base image's size, using the watermark's own alpha
channel as the paste mask.  Outside the watermark's footprint the layer
keeps its transparent `(0,0,0,0)` pixels; inside, each band is Pillow's
masked blend of the transparent destination with the watermark sample.
Negative positions simply crop the watermark at the image edge. -/
def pasteLayer (bw bh : Nat) (wm : Img) (pos : Int × Int) : Img :=
  { width := bw, height := bh,
    px := fun x y =>
      if pos.1 ≤ (x : Int) ∧ (x : Int) < pos.1 + wm.width ∧
         pos.2 ≤ (y : Int) ∧ (y : Int) < pos.2 + wm.height then
        let s := wm.px ((x : Int) - pos.1).toNat ((y : Int) - pos.2).toNat
        { r := pasteBlend s.a 0 s.r, g := pasteBlend s.a 0 s.g,
          b := pasteBlend s.a 0 s.b, a := pasteBlend s.a 0 s.a }
      else { r := 0, g := 0, b := 0, a := 0 } }

/-- One pixel of `Image.alpha_composite(dst, src)`.  Pillow's
`AlphaComposite.c` short-circuits a fully transparent source sample to the
destination sample; otherwise it blends in fixed point (modelled here with
exactly-rounded integer division, which no claim depends on). -/
def compositePixel (dst src : Pixel) : Pixel :=
  if src.a = 0 then dst
  else
    let blend := dst.a * (255 - src.a)
    let outa255 := src.a * 255 + blend
    let coef1 := src.a * 255 * 255 * 128 / outa255
    let coef2 := 255 * 128 - coef1
    { r := (src.r * coef1 + dst.r * coef2 + 255 * 64) / (255 * 128),
      g := (src.g * coef1 + dst.g * coef2 + 255 * 64) / (255 * 128),
      b := (src.b * coef1 + dst.b * coef2 + 255 * 64) / (255 * 128),
      a := (outa255 + 127) / 255 }

/-- Line 156: `Image.alpha_composite(base_image, transparent_layer)`; both
operands have the base image's size. -/
def alphaComposite (dst src : Img) : Img :=
  { width := dst.width, height := dst.height,
    px := fun x y => compositePixel (dst.px x y) (src.px x y) }

/-- Lines 158–164: flatten to RGB (`convert("RGB")`, so no alpha channel),
encode as JPEG at quality 95 into a fresh `BytesIO`, `seek(0)` so the
stream position is back at the start, and set the `name` attribute. -/
def encodeJpeg (img : Img) : Buffer :=
  { width := img.width, height := img.height, format := "JPEG",
    quality := 95, hasAlpha := false, streamPos := 0,
    name := "watermarked.jpg" }

/-- `apply_watermark` (lines 90–172) up to the encoding step: decode the
base image, normalise the watermark (resize + opacity scaling for an image
watermark given by a path, as-is for a pre-rendered text raster), resolve
the position, paste onto a transparent layer and alpha-composite.  Any
Python exception is caught at line 168 and surfaces as an error result:
an undecodable base or watermark path is the spec's `ImageDecodeError`;
a zero-width watermark (`ZeroDivisionError` at line 113) or a zero-sized
resize target (Pillow's `ValueError`) is a generic `ioError`. -/
def applyWatermarkCore (env : Env) (image_path : String)
    (watermark_asset : String ⊕ Img) (options : Options) :
    Except WMError Img :=
  match env.decode image_path with
  | none => .error .imageDecodeError
  | some base_image =>
    let fw : Except WMError Img :=
      match watermark_asset with
      | .inl wmPath =>
        match env.decode wmPath with
        | none => .error .imageDecodeError
        | some img_watermark =>
          if img_watermark.width = 0 then .error .ioError
          else
            let new_width := newWidthOf base_image.width options.scale
            let new_height :=
              newHeightOf new_width img_watermark.width img_watermark.height
            if new_width = 0 ∨ new_height = 0 then .error .ioError
            else
              .ok (applyOpacity options.opacity
                    (resizeTo env.resample img_watermark new_width new_height))
      | .inr textImg => .ok textImg
    match fw with
    | .error e => .error e
    | .ok final_watermark =>
      let p := resolvePosition options.type options.position
        base_image.width base_image.height
        final_watermark.width final_watermark.height
      let layer :=
        pasteLayer base_image.width base_image.height final_watermark p
      .ok (alphaComposite base_image layer)

/-- `apply_watermark` in full: the composited image is flattened and encoded
into the returned buffer. -/
def apply_watermark (env : Env) (image_path : String)
    (watermark_asset : String ⊕ Img) (options : Options) :
    Except WMError Buffer :=
  (applyWatermarkCore env image_path watermark_asset options).map encodeJpeg

/-- The per-file batch loop of `run` (lines 262–295).  For each file the
loop records the file name and the produced buffer (`none` when processing
failed and the file was skipped).  For a text watermark the loop first runs
`Image.open(image_path)` at line 272 *outside any try/except*: a file that
fails to decode there raises an uncaught exception and aborts the whole
loop, which the second component records (`some f` = the run died at `f`,
with the remaining files never attempted).  For an image watermark every
failure is absorbed by `apply_watermark`'s handler and the loop continues. -/
def runLoop (env : Env) (font_path : String) (options : Options)
    (asset : String) :
    List String → List (String × Option Buffer) × Option String
  | [] => ([], none)
  | f :: rest =>
    if options.type = "text" then
      match env.decode f with
      | none => ([], some f)
      | some img =>
        let step : Option Buffer :=
          match create_text_watermark_image env asset (img.width, img.height)
              font_path options.opacity options.scale with
          | .error _ => none
          | .ok wm => (apply_watermark env f (.inr wm) options).toOption
        let r := runLoop env font_path options asset rest
        ((f, step) :: r.1, r.2)
    else
      let r := runLoop env font_path options asset rest
      ((f, (apply_watermark env f (.inl asset) options).toOption) :: r.1, r.2)

/-- The spec's claimed width formula, following its words literally:
`round(baseWidth * scalePercent / 100)` with round-to-nearest. -/
def specRoundNewWidth (baseWidth scale : Nat) : Int :=
  round ((baseWidth * scale : ℚ) / 100)

/-- The spec's claimed font-size formula, following its words literally:
`round(referenceWidth * scalePercent / 100 / length(text) * 1.8)`. -/
def specRoundFontSize (refWidth scale len : Nat) : Int :=
  round ((refWidth * scale : ℚ) / 100 / len * (9 / 5))

/-! ## Helper lemmas -/

/-- The quotient bounds characterising Nat division: `a / b` is the floor of
the exact quotient. -/
theorem nat_div_bounds (a b : Nat) (hb : 0 < b) :
    a / b * b ≤ a ∧ a < (a / b + 1) * b := by
  refine ⟨Nat.div_mul_le_self a b, ?_⟩
  have h := Nat.div_add_mod a b
  have hm := Nat.mod_lt a hb
  calc a = b * (a / b) + a % b := h.symm
    _ < b * (a / b) + b := by omega
    _ = (a / b + 1) * b := by ring

/-! ## C1: anchor placement for non-text watermarks -/

/-- C1 (corrected): for a non-text watermark the paste position is resolved
from the anchor key with padding 10: bottom-right (`"1"`) gives
`(bw - ww - 10, bh - wh - 10)`, bottom-left (`"2"`) gives
`(10, bh - wh - 10)`, top-right (`"3"`) gives `(bw - ww - 10, 10)`,
top-left (`"4"`) gives `(10, 10)`, centre (`"5"`) gives the midpoints
truncated toward zero — which equal the floored midpoints (`(bw - ww) / 2`
is floor division here since the divisor is positive) whenever the
watermark is no larger than the base — any unrecognised key falls back to
bottom-right, and bottom-right on a 1000×800 base with a 100×50 watermark
places the corner at `(890, 740)`. -/
theorem anchor_position_resolution (t k : String) (bw bh ww wh : Int)
    (ht : t ≠ "text") :
    resolvePosition t "1" bw bh ww wh = (bw - ww - 10, bh - wh - 10) ∧
    resolvePosition t "2" bw bh ww wh = (10, bh - wh - 10) ∧
    resolvePosition t "3" bw bh ww wh = (bw - ww - 10, 10) ∧
    resolvePosition t "4" bw bh ww wh = (10, 10) ∧
    resolvePosition t "5" bw bh ww wh = ((bw - ww).tdiv 2, (bh - wh).tdiv 2) ∧
    (0 ≤ bw - ww → (resolvePosition t "5" bw bh ww wh).1 = (bw - ww) / 2) ∧
    (0 ≤ bh - wh → (resolvePosition t "5" bw bh ww wh).2 = (bh - wh) / 2) ∧
    (k ≠ "1" → k ≠ "2" → k ≠ "3" → k ≠ "4" → k ≠ "5" →
      resolvePosition t k bw bh ww wh = (bw - ww - 10, bh - wh - 10)) ∧
    resolvePosition "image" "1" 1000 800 100 50 = (890, 740) := by
  refine ⟨by simp [resolvePosition, ht], by simp [resolvePosition, ht],
    by simp [resolvePosition, ht], by simp [resolvePosition, ht],
    by simp [resolvePosition, ht], ?_, ?_, ?_, by decide⟩
  · intro h
    simp [resolvePosition, ht]
    exact Int.tdiv_eq_ediv h (by decide)
  · intro h
    simp [resolvePosition, ht]
    exact Int.tdiv_eq_ediv h (by decide)
  · intro h1 h2 h3 h4 h5
    simp [resolvePosition, ht, h1, h2, h3, h4, h5]

/-- Witness for C1 at a concrete input (bottom-right instance and the
centred anchor on a 1000×800 base with a 100×50 watermark). -/
theorem anchor_position_resolution_witness :
    resolvePosition "image" "1" 1000 800 100 50 = (890, 740) ∧
    (resolvePosition "image" "5" 1000 800 100 50).1 = 450 := by
  have h := anchor_position_resolution "image" "x" 1000 800 100 50 (by decide)
  refine ⟨h.2.2.2.2.2.2.2.2, ?_⟩
  have h5 := h.2.2.2.2.2.1 (by decide)
  rw [h5]
  decide

/-- Counterexample to C1 as stated: at centre anchor with a 103-wide
watermark on a 100-wide base, the code truncates `(100 - 103) / 2 = -1.5`
toward zero to `-1`, while the floored midpoint the claim specifies is
`-2`. -/
theorem center_truncates_not_floors_cex :
    (resolvePosition "image" "5" 100 800 103 50).1 = -1 ∧
    ((100 : Int) - 103) / 2 = -2 := by decide

/-! ## C2: text watermarks are always centred -/

/-- C2 (corrected): for a text watermark every anchor key produces the same
centred placement as anchor centre would, at the midpoints truncated toward
zero — equal to the floored midpoints whenever the watermark is no larger
than the base. -/
theorem text_watermark_centered (k : String) (bw bh ww wh : Int) :
    resolvePosition "text" k bw bh ww wh =
      ((bw - ww).tdiv 2, (bh - wh).tdiv 2) ∧
    resolvePosition "text" k bw bh ww wh =
      resolvePosition "image" "5" bw bh ww wh ∧
    (0 ≤ bw - ww → (resolvePosition "text" k bw bh ww wh).1 = (bw - ww) / 2) ∧
    (0 ≤ bh - wh → (resolvePosition "text" k bw bh ww wh).2 = (bh - wh) / 2) := by
  refine ⟨by simp [resolvePosition], by simp [resolvePosition], ?_, ?_⟩
  · intro h
    simp [resolvePosition]
    exact Int.tdiv_eq_ediv h (by decide)
  · intro h
    simp [resolvePosition]
    exact Int.tdiv_eq_ediv h (by decide)

/-- Witness for C2 at a concrete input: requesting top-left (`"4"`) with a
text watermark still yields the centred placement. -/
theorem text_watermark_centered_witness :
    resolvePosition "text" "4" 1000 800 100 50 =
      resolvePosition "image" "5" 1000 800 100 50 ∧
    (resolvePosition "text" "4" 1000 800 100 50).1 = 450 := by
  have h := text_watermark_centered "4" 1000 800 100 50
  refine ⟨h.2.1, ?_⟩
  have h1 := h.2.2.1 (by decide)
  rw [h1]
  decide

/-- Counterexample to C2 as stated: for a 104-wide text watermark on a
101-wide base the code truncates `(101 - 104) / 2 = -1.5` toward zero to
`-1`, while the floored midpoint the claim specifies is `-2`. -/
theorem text_center_truncates_cex :
    (resolvePosition "text" "4" 101 200 104 50).1 = -1 ∧
    ((101 : Int) - 104) / 2 = -2 := by decide

/-! ## C3: resize dimensions of an image watermark -/

/-- C3 (corrected): the resized watermark's width is
`⌊baseWidth * scalePercent / 100⌋` (truncation, not round-to-nearest) and
its height is `⌊newWidth * wmHeight / wmWidth⌋`, so the original
height/width ratio is preserved within one pixel:
`newHeight ≤ newWidth * (wmHeight / wmWidth) < newHeight + 1`. -/
theorem resize_dimension_spec (bw s wmW wmH : Nat) (hw : 0 < wmW) :
    (⌊(bw * s : ℚ) / 100⌋ = (newWidthOf bw s : Int)) ∧
    newWidthOf bw s * 100 ≤ bw * s ∧
    bw * s < (newWidthOf bw s + 1) * 100 ∧
    (⌊(newWidthOf bw s * wmH : ℚ) / wmW⌋ =
      (newHeightOf (newWidthOf bw s) wmW wmH : Int)) ∧
    ((newHeightOf (newWidthOf bw s) wmW wmH : ℚ) ≤
      (newWidthOf bw s : ℚ) * ((wmH : ℚ) / wmW)) ∧
    ((newWidthOf bw s : ℚ) * ((wmH : ℚ) / wmW) <
      newHeightOf (newWidthOf bw s) wmW wmH + 1) := by
  have hw' : (0 : ℚ) < wmW := by exact_mod_cast hw
  have hwb := nat_div_bounds (newWidthOf bw s * wmH) wmW hw
  refine ⟨?_, (nat_div_bounds (bw * s) 100 (by norm_num)).1,
    (nat_div_bounds (bw * s) 100 (by norm_num)).2, ?_, ?_, ?_⟩
  · have h : ((bw * s : ℚ)) / 100 = ((bw * s : ℕ) : ℚ) / ((100 : ℕ) : ℚ) := by
      push_cast; ring
    rw [h, Rat.floor_natCast_div_natCast, newWidthOf]
    exact_mod_cast rfl
  · have h : ((newWidthOf bw s * wmH : ℚ)) / wmW =
        ((newWidthOf bw s * wmH : ℕ) : ℚ) / ((wmW : ℕ) : ℚ) := by
      push_cast; ring
    rw [h, Rat.floor_natCast_div_natCast, newHeightOf]
    exact_mod_cast rfl
  · rw [← mul_div_assoc, le_div_iff₀ hw']
    exact_mod_cast hwb.1
  · rw [← mul_div_assoc, div_lt_iff₀ hw']
    have h2 : ((newWidthOf bw s * wmH : ℕ) : ℚ) <
        ((newHeightOf (newWidthOf bw s) wmW wmH : ℚ) + 1) * wmW := by
      calc ((newWidthOf bw s * wmH : ℕ) : ℚ)
          < ((newHeightOf (newWidthOf bw s) wmW wmH + 1) * wmW : ℕ) := by
            exact_mod_cast hwb.2
        _ = ((newHeightOf (newWidthOf bw s) wmW wmH : ℚ) + 1) * wmW := by
            push_cast; ring
    calc (newWidthOf bw s : ℚ) * (wmH : ℚ)
        = ((newWidthOf bw s * wmH : ℕ) : ℚ) := by push_cast; ring
      _ < ((newHeightOf (newWidthOf bw s) wmW wmH : ℚ) + 1) * wmW := h2

/-- Witness for C3 at a concrete input: a 1000-wide base scaled at 15% with
a 4×2 watermark. -/
theorem resize_dimension_spec_witness :
    (⌊(1000 * 15 : ℚ) / 100⌋ = (newWidthOf 1000 15 : Int)) ∧
    newWidthOf 1000 15 * 100 ≤ 1000 * 15 ∧
    1000 * 15 < (newWidthOf 1000 15 + 1) * 100 ∧
    (⌊(newWidthOf 1000 15 * 2 : ℚ) / 4⌋ =
      (newHeightOf (newWidthOf 1000 15) 4 2 : Int)) ∧
    ((newHeightOf (newWidthOf 1000 15) 4 2 : ℚ) ≤
      (newWidthOf 1000 15 : ℚ) * ((2 : ℚ) / 4)) ∧
    ((newWidthOf 1000 15 : ℚ) * ((2 : ℚ) / 4) <
      newHeightOf (newWidthOf 1000 15) 4 2 + 1) := by
  have h := resize_dimension_spec 1000 15 4 2 (by norm_num)
  exact_mod_cast h

/-- Counterexample to C3 as stated: on a 111-wide base at 70% the code's
width is `int(111 * 0.7) = 77`, while `round(111 * 70 / 100) = 78`. -/
theorem resize_width_truncates_cex :
    newWidthOf 111 70 = 77 ∧ specRoundNewWidth 111 70 = 78 := by
  constructor
  · decide
  · rw [specRoundNewWidth, round_eq]
    have h : ((111 : ℕ) * (70 : ℕ) : ℚ) / 100 + 1 / 2 =
        ((15640 : ℕ) : ℚ) / ((200 : ℕ) : ℚ) := by push_cast; norm_num
    rw [h, Rat.floor_natCast_div_natCast]
    decide

/-! ## C4: the opacity step touches only the alpha channel -/

/-- C4 (corrected): for `opacity < 100` the opacity step of
`apply_watermark` maps every alpha sample to the *rounded* (half-to-even)
value of `alpha * opacity / 100` — not the truncated value the claim
states — and leaves every RGB sample and the dimensions unchanged (the
base image is not an input of the step at all); for `opacity = 100` the
step is the identity, leaving the alpha channel exactly equal to the
resized watermark's. -/
theorem opacity_step_alpha_only (img : Img) (x y : Nat) :
    (∀ op : Nat, op < 100 →
      ((applyOpacity op img).px x y).r = (img.px x y).r ∧
      ((applyOpacity op img).px x y).g = (img.px x y).g ∧
      ((applyOpacity op img).px x y).b = (img.px x y).b ∧
      ((applyOpacity op img).px x y).a =
        roundHalfEven ((img.px x y).a * op) 100 ∧
      (applyOpacity op img).width = img.width ∧
      (applyOpacity op img).height = img.height) ∧
    applyOpacity 100 img = img := by
  constructor
  · intro op hop
    simp [applyOpacity, hop]
  · simp [applyOpacity]

/-- A small concrete raster used by witnesses. -/
def witImg : Img := ⟨3, 2, fun _ _ => ⟨10, 20, 30, 200⟩⟩

/-- Witness for C4 at a concrete input: opacity 40 on an alpha-200 pixel
gives alpha 80 with RGB untouched, and opacity 100 is the identity. -/
theorem opacity_step_alpha_only_witness :
    ((applyOpacity 40 witImg).px 0 0).a = 80 ∧
    ((applyOpacity 40 witImg).px 0 0).r = (witImg.px 0 0).r ∧
    applyOpacity 100 witImg = witImg := by
  have h := opacity_step_alpha_only witImg 0 0
  have h40 := h.1 40 (by norm_num)
  exact ⟨(h40.2.2.2.1).trans (by decide), h40.1, h.2⟩

/-- A fully opaque single-pixel raster for the opacity counterexample. -/
def opacityCexImg : Img := ⟨1, 1, fun _ _ => ⟨0, 0, 0, 255⟩⟩

/-- Counterexample to C4 as stated: at alpha 255 and opacity 50 the exact
value is `127.5`; Pillow's `point` rounds the float lookup-table entry
half-to-even, so the program yields 128, while the truncation the claim
asserts would yield 127. -/
theorem opacity_rounds_not_truncates_cex :
    ((applyOpacity 50 opacityCexImg).px 0 0).a = 128 ∧
    (255 * 50 / 100 : Nat) = 127 := by decide

/-! ## C5: font-size derivation for text watermarks -/

/-- C5 (corrected): `create_text_watermark_image` derives the font size as
`⌊referenceWidth * scalePercent / 100 / length(text) * 1.8⌋` — Python's
`int(...)`, i.e. truncation, not round-to-nearest.  Equivalently the font
size is the integer quotient of `9 * referenceWidth * scalePercent` by
`500 * length(text)`. -/
theorem font_size_derivation (w s l : Nat) (hl : 0 < l) :
    (⌊(w * s : ℚ) / 100 / l * (9 / 5)⌋ = (fontSizeOf w s l : Int)) ∧
    fontSizeOf w s l * (500 * l) ≤ w * s * 9 ∧
    w * s * 9 < (fontSizeOf w s l + 1) * (500 * l) := by
  have hb := nat_div_bounds (w * s * 9) (500 * l) (by positivity)
  refine ⟨?_, hb.1, hb.2⟩
  have h : ((w * s : ℚ)) / 100 / l * (9 / 5) =
      ((w * s * 9 : ℕ) : ℚ) / ((500 * l : ℕ) : ℚ) := by
    push_cast; ring
  rw [h, Rat.floor_natCast_div_natCast, fontSizeOf]
  exact_mod_cast rfl

/-- Witness for C5 at a concrete input: a 1000-wide reference at 25% with a
7-character text gives font size 64. -/
theorem font_size_derivation_witness :
    (⌊(1000 * 25 : ℚ) / 100 / 7 * (9 / 5)⌋ = (fontSizeOf 1000 25 7 : Int)) ∧
    fontSizeOf 1000 25 7 * (500 * 7) ≤ 1000 * 25 * 9 ∧
    1000 * 25 * 9 < (fontSizeOf 1000 25 7 + 1) * (500 * 7) := by
  have h := font_size_derivation 1000 25 7 (by norm_num)
  exact_mod_cast h

/-- Counterexample to C5 as stated: for a 103-wide reference at 100% and a
2-character text the exact value is `92.7`; the code truncates to 92 while
the claimed `round(...)` gives 93. -/
theorem font_size_truncates_cex :
    fontSizeOf 103 100 2 = 92 ∧ specRoundFontSize 103 100 2 = 93 := by
  constructor
  · decide
  · rw [specRoundFontSize, round_eq]
    have h : ((103 : ℕ) * (100 : ℕ) : ℚ) / 100 / (2 : ℕ) * (9 / 5) + 1 / 2 =
        ((932 : ℕ) : ℚ) / ((10 : ℕ) : ℚ) := by push_cast; norm_num
    rw [h, Rat.floor_natCast_div_natCast]
    decide

/-! ## C6: error paths produce error results, not rasters or buffers -/

/-- The base raster decoded for every healthy file in the batch scenario. -/
def batchBase : Img := ⟨4, 3, fun _ _ => ⟨10, 20, 30, 255⟩⟩

/-- A loadable font for the batch scenario. -/
def batchFont : Font where
  glyphBBox := fun _ => ⟨0, 0, 8, 6⟩
  renderGlyph := fun _ _ _ _ _ => ⟨255, 255, 255, 128⟩

/-- A batch environment in which exactly `img3.jpg` fails to decode. -/
def batchEnv : Env where
  decode := fun s => if s = "img3.jpg" then none else some batchBase
  truetype := fun _ _ => .ok batchFont
  resample := fun _ _ _ _ _ => ⟨0, 0, 0, 0⟩

/-- C7 (code bug): the spec requires that one corrupt image never aborts a
batch, and for an image watermark the code does continue (second half:
five files with `img3.jpg` corrupt give exactly four successes and one
reported failure, all five attempted).  But for a *text* watermark the
per-file `Image.open(image_path)` at line 272 of `run` is outside any
try/except, so the corrupt third file raises an uncaught exception and the
loop dies after only the first two files — contradicting the claim. -/
theorem batch_text_mode_abort_eval :
    (runLoop batchEnv "arial.ttf" ⟨"text", "1", 25, 50⟩ "@ch"
      ["img1.jpg", "img2.jpg", "img3.jpg", "img4.jpg", "img5.jpg"]).2 =
      some "img3.jpg" ∧
    ((runLoop batchEnv "arial.ttf" ⟨"text", "1", 25, 50⟩ "@ch"
      ["img1.jpg", "img2.jpg", "img3.jpg", "img4.jpg", "img5.jpg"]).1.map
      Prod.fst = ["img1.jpg", "img2.jpg"]) ∧
    (runLoop batchEnv "logo.png" ⟨"image", "1", 50, 70⟩ "logo.png"
      ["img1.jpg", "img2.jpg", "img3.jpg", "img4.jpg", "img5.jpg"]).2 =
      none ∧
    ((runLoop batchEnv "logo.png" ⟨"image", "1", 50, 70⟩ "logo.png"
      ["img1.jpg", "img2.jpg", "img3.jpg", "img4.jpg", "img5.jpg"]).1.map
      (fun e => e.2.isSome) = [true, true, false, true, true]) := by
  exact ⟨rfl, rfl, rfl, rfl⟩

/-! ## Helper lemmas for compositing -/

/-- The opacity step never changes the raster's width. -/
@[simp] theorem applyOpacity_width (op : Nat) (img : Img) :
    (applyOpacity op img).width = img.width := by
  unfold applyOpacity; split <;> rfl

/-- The opacity step never changes the raster's height. -/
@[simp] theorem applyOpacity_height (op : Nat) (img : Img) :
    (applyOpacity op img).height = img.height := by
  unfold applyOpacity; split <;> rfl

/-- At opacity 0 every alpha sample of the stepped raster is 0. -/
theorem applyOpacity_zero_alpha (img : Img) (x y : Nat) :
    ((applyOpacity 0 img).px x y).a = 0 := by
  simp [applyOpacity, roundHalfEven]

/-- Pasting a raster whose alpha channel is identically 0 onto the
transparent layer leaves every layer pixel fully transparent: the mask is 0
everywhere, and Pillow's masked blend with mask 0 keeps the destination. -/
theorem pasteLayer_transparent (bw bh : Nat) (wm : Img) (pos : Int × Int)
    (h : ∀ i j, (wm.px i j).a = 0) (x y : Nat) :
    (pasteLayer bw bh wm pos).px x y = ⟨0, 0, 0, 0⟩ := by
  simp only [pasteLayer]
  split
  · simp [pasteBlend, mulDiv255, h]
  · rfl

/-- Alpha-compositing a fully transparent source sample over any
destination sample returns the destination sample exactly (Pillow's
fast path in `AlphaComposite.c`). -/
theorem compositePixel_transparent_src (d : Pixel) :
    compositePixel d ⟨0, 0, 0, 0⟩ = d := by
  simp [compositePixel]

/-- Compositing the base under a layer built by pasting an all-transparent
raster reproduces the base pixel for pixel. -/
theorem alphaComposite_transparent_layer (base wm : Img) (pos : Int × Int)
    (h : ∀ i j, (wm.px i j).a = 0) (x y : Nat) :
    (alphaComposite base
      (pasteLayer base.width base.height wm pos)).px x y = base.px x y := by
  simp [alphaComposite, pasteLayer_transparent base.width base.height wm pos h,
    compositePixel_transparent_src]

/-- A successful `applyWatermarkCore` result always has the base image's
dimensions: every success branch ends in `alpha_composite` over layers of
the base image's size. -/
theorem core_ok_dims (env : Env) (p : String) (a : String ⊕ Img)
    (o : Options) (base img : Img)
    (hb : env.decode p = some base)
    (hok : applyWatermarkCore env p a o = .ok img) :
    img.width = base.width ∧ img.height = base.height := by
  rcases a with wmp | ti
  · rcases hdw : env.decode wmp with _ | wm
    · simp [applyWatermarkCore, hb, hdw] at hok
    · by_cases h0 : wm.width = 0
      · simp [applyWatermarkCore, hb, hdw, h0] at hok
      · by_cases hz : newWidthOf base.width o.scale = 0 ∨
            newHeightOf (newWidthOf base.width o.scale) wm.width wm.height = 0
        · simp [applyWatermarkCore, hb, hdw, h0, hz] at hok
        · simp [applyWatermarkCore, hb, hdw, h0, hz] at hok
          rw [← hok]
          exact ⟨rfl, rfl⟩
  · simp [applyWatermarkCore, hb] at hok
    rw [← hok]
    exact ⟨rfl, rfl⟩

/-! ## C8: zero opacity leaves the base image untouched -/

/-- C8 (confirmed): with `opacityPercent = 0` the opacity step zeroes every
alpha sample of the resized watermark, the paste mask is therefore 0
everywhere, the transparent layer stays fully transparent, and
`alpha_composite` returns the base image pixel for pixel: the composited
RGBA result before encoding is identical to the base image alone. -/
theorem zero_opacity_identity (env : Env) (image_path wm_path : String)
    (opts : Options) (base wm : Img)
    (hb : env.decode image_path = some base)
    (hw : env.decode wm_path = some wm)
    (hw0 : wm.width ≠ 0)
    (hnw : newWidthOf base.width opts.scale ≠ 0)
    (hnh : newHeightOf (newWidthOf base.width opts.scale)
      wm.width wm.height ≠ 0)
    (hop : opts.opacity = 0) :
    ∃ final : Img,
      applyWatermarkCore env image_path (.inl wm_path) opts = .ok final ∧
      final.width = base.width ∧ final.height = base.height ∧
      ∀ x y : Nat, final.px x y = base.px x y := by
  obtain ⟨final, hcore⟩ : ∃ final,
      applyWatermarkCore env image_path (.inl wm_path) opts = .ok final := by
    simp [applyWatermarkCore, hb, hw, hw0, hnw, hnh]
  obtain ⟨hwd, hht⟩ := core_ok_dims env image_path (.inl wm_path) opts
    base final hb hcore
  refine ⟨final, hcore, hwd, hht, ?_⟩
  have hfin : final = alphaComposite base
      (pasteLayer base.width base.height
        (applyOpacity opts.opacity (resizeTo env.resample wm
          (newWidthOf base.width opts.scale)
          (newHeightOf (newWidthOf base.width opts.scale)
            wm.width wm.height)))
        (resolvePosition opts.type opts.position base.width base.height
          (newWidthOf base.width opts.scale)
          (newHeightOf (newWidthOf base.width opts.scale)
            wm.width wm.height))) := by
    have := hcore
    simp [applyWatermarkCore, hb, hw, hw0, hnw, hnh] at this
    exact this.symm
  rw [hfin, hop]
  exact fun x y => alphaComposite_transparent_layer base _ _
    (fun i j => applyOpacity_zero_alpha _ i j) x y

/-- Concrete 10×8 base image for the zero-opacity witness. -/
def zoBase : Img := ⟨10, 8, fun _ _ => ⟨5, 6, 7, 255⟩⟩

/-- Concrete 4×2 watermark for the zero-opacity witness. -/
def zoWm : Img := ⟨4, 2, fun _ _ => ⟨9, 9, 9, 200⟩⟩

/-- Environment decoding `wm.png` to the watermark and anything else to the
base image. -/
def zoEnv : Env where
  decode := fun s => if s = "wm.png" then some zoWm else some zoBase
  truetype := fun _ _ => .error .fileNotFound
  resample := fun _ _ _ _ _ => ⟨1, 2, 3, 4⟩

/-- Witness for C8 at a concrete input. -/
theorem zero_opacity_identity_witness :
    ∃ final : Img,
      applyWatermarkCore zoEnv "base.jpg" (.inl "wm.png")
        ⟨"image", "1", 50, 0⟩ = .ok final ∧
      final.width = 10 ∧ final.height = 8 ∧
      ∀ x y : Nat, final.px x y = zoBase.px x y := by
  obtain ⟨f, h1, h2, h3, h4⟩ := zero_opacity_identity zoEnv "base.jpg"
    "wm.png" ⟨"image", "1", 50, 0⟩ zoBase zoWm rfl rfl
    (by decide) (by decide) (by decide) rfl
  exact ⟨f, h1, h2.trans rfl, h3.trans rfl, h4⟩

/-! ## C9: shape of the encoded output buffer -/

/-- C9 (confirmed): every successful `apply_watermark` call returns a
buffer holding an RGB (no alpha) JPEG at quality 95 whose decoded
dimensions are exactly the base image's, with the stream position rewound
to the start and the `name` attribute set. -/
theorem output_buffer_shape (env : Env) (p : String) (a : String ⊕ Img)
    (o : Options) (base : Img) (buf : Buffer)
    (hb : env.decode p = some base)
    (hok : apply_watermark env p a o = .ok buf) :
    buf.format = "JPEG" ∧ buf.quality = 95 ∧ buf.hasAlpha = false ∧
    buf.streamPos = 0 ∧ buf.name = "watermarked.jpg" ∧
    buf.width = base.width ∧ buf.height = base.height := by
  unfold apply_watermark at hok
  cases hcore : applyWatermarkCore env p a o with
  | error e =>
    rw [hcore] at hok
    simp [Except.map] at hok
  | ok img =>
    rw [hcore] at hok
    simp [Except.map] at hok
    obtain ⟨hwd, hht⟩ := core_ok_dims env p a o base img hb hcore
    rw [← hok]
    exact ⟨rfl, rfl, rfl, rfl, rfl, hwd, hht⟩

/-- Environment decoding every path to the 3×2 `witImg`. -/
def jpegEnv : Env where
  decode := fun _ => some witImg
  truetype := fun _ _ => .error .fileNotFound
  resample := fun _ _ _ _ _ => ⟨0, 0, 0, 0⟩

/-- Witness for C9 at a concrete input. -/
theorem output_buffer_shape_witness :
    ∃ buf : Buffer,
      apply_watermark jpegEnv "a.jpg" (.inr witImg) ⟨"text", "1", 25, 50⟩ =
        .ok buf ∧
      buf.format = "JPEG" ∧ buf.quality = 95 ∧ buf.hasAlpha = false ∧
      buf.streamPos = 0 ∧ buf.width = witImg.width ∧
      buf.height = witImg.height := by
  have hok : apply_watermark jpegEnv "a.jpg" (.inr witImg)
      ⟨"text", "1", 25, 50⟩ =
      .ok ⟨3, 2, "JPEG", 95, false, 0, "watermarked.jpg"⟩ := rfl
  have h := output_buffer_shape jpegEnv "a.jpg" (.inr witImg)
    ⟨"text", "1", 25, 50⟩ witImg _ rfl hok
  exact ⟨_, hok, h.1, h.2.1, h.2.2.1, h.2.2.2.1, h.2.2.2.2.2.1,
    h.2.2.2.2.2.2⟩

/-! ## C10: no fit precondition, negative positions still succeed -/

/-- C10 (confirmed): `apply_watermark` imposes no requirement that the
watermark fit inside the base image.  When the scaled watermark width plus
the 10-pixel padding exceeds the base width, the bottom-right x-coordinate
is negative, and the call still pastes (Pillow crops at the edge) and
returns an encoded buffer rather than failing. -/
theorem oversized_watermark_no_precondition (env : Env)
    (p wmp : String) (o : Options) (base wm : Img)
    (hb : env.decode p = some base)
    (hw : env.decode wmp = some wm)
    (hw0 : wm.width ≠ 0)
    (hnw : newWidthOf base.width o.scale ≠ 0)
    (hnh : newHeightOf (newWidthOf base.width o.scale)
      wm.width wm.height ≠ 0)
    (ht : o.type ≠ "text") (hp : o.position = "1")
    (hover : base.width < newWidthOf base.width o.scale + 10) :
    (resolvePosition o.type o.position base.width base.height
      (newWidthOf base.width o.scale)
      (newHeightOf (newWidthOf base.width o.scale) wm.width wm.height)).1
      < 0 ∧
    ∃ buf, apply_watermark env p (.inl wmp) o = .ok buf := by
  constructor
  · rw [hp]
    simp [resolvePosition, ht]
    omega
  · obtain ⟨img, hcore⟩ : ∃ img,
        applyWatermarkCore env p (.inl wmp) o = .ok img := by
      simp [applyWatermarkCore, hb, hw, hw0, hnw, hnh]
    exact ⟨encodeJpeg img, by simp [apply_watermark, hcore, Except.map]⟩

/-- Concrete 10×8 base image for the oversize witness. -/
def ovBase : Img := ⟨10, 8, fun _ _ => ⟨1, 2, 3, 255⟩⟩

/-- Concrete 4×2 watermark for the oversize witness. -/
def ovWm : Img := ⟨4, 2, fun _ _ => ⟨4, 5, 6, 128⟩⟩

/-- Environment decoding `wm.png` to the watermark and anything else to the
base image. -/
def ovEnv : Env where
  decode := fun s => if s = "wm.png" then some ovWm else some ovBase
  truetype := fun _ _ => .error .fileNotFound
  resample := fun _ _ _ _ _ => ⟨7, 7, 7, 7⟩

/-- Witness for C10 at a concrete input: scale 100 on a 10-wide base gives
a 10-wide watermark, so the bottom-right x-coordinate is `10 - 10 - 10 =
-10`, and the call still succeeds. -/
theorem oversized_watermark_no_precondition_witness :
    (resolvePosition "image" "1" 10 8 10 5).1 < 0 ∧
    ∃ buf, apply_watermark ovEnv "b.jpg" (.inl "wm.png")
      ⟨"image", "1", 100, 70⟩ = .ok buf := by
  have h := oversized_watermark_no_precondition ovEnv "b.jpg" "wm.png"
    ⟨"image", "1", 100, 70⟩ ovBase ovWm rfl rfl
    (by decide) (by decide) (by decide) (by decide) rfl (by decide)
  exact ⟨h.1, h.2⟩

end Teleforge
